import Mathlib

/-!
# Verification of the Alldownload media-resolution engine

Shallow embedding of the core of the Alldownload repository
(platform detection, per-platform resolvers, mirror fallback,
normalisation/ranking/deduplication of download options), together
with theorems settling the spec claims C1..C10.

Conventions used throughout the embedding:
* JavaScript values that may be `undefined`/`null` (or, where noted, a
  falsy empty string) are modelled as `Option`.
* Network calls are modelled as oracle parameters: a resolver takes the
  (already parsed) upstream response as an argument instead of fetching
  it; a mirror loop takes an `attempt` function from endpoint to
  optional response ( `none` = transport error, timeout or non-2xx ).
* `Array.prototype.sort` with a numeric comparator `(a,b) => k(a)-k(b)`
  is modelled as a stable insertion sort by the integer key `k`
  (ECMAScript guarantees sort stability, and stable sorting by a total
  preorder has a unique result).
* Thrown `Error` values are modelled with `Except String`.
-/

namespace Alldownload

/-! ## A small regular-expression engine (Brzozowski derivatives)

`src/constants.tsx` stores one detection `RegExp` per platform and
`src/utils/platform.ts` calls `regex.test(url)`.  The patterns use only
classic regular operators (literals, character classes, alternation,
option, repetition), so `test` — "does some substring of the input
match?" — is faithfully captured by a derivative-based matcher. -/

/-- Is `c` a JavaScript whitespace character (the class `\s`)? -/
def isJsSpace (c : Char) : Bool :=
  c.val == 0x9 || c.val == 0xA || c.val == 0xB || c.val == 0xC ||
  c.val == 0xD || c.val == 0x20 || c.val == 0xA0 || c.val == 0x1680 ||
  (0x2000 ≤ c.val && c.val ≤ 0x200A) || c.val == 0x2028 ||
  c.val == 0x2029 || c.val == 0x202F || c.val == 0x205F ||
  c.val == 0x3000 || c.val == 0xFEFF

/-- The character classes appearing in the platform patterns. -/
inductive CharClass where
  | nonSpace    -- `\S`
  | wordChar    -- `\w`
  | digit       -- `\d` and `[0-9]`
  | wordDotDash -- `[\w.-]`
  | wordDash    -- `[\w-]`
deriving DecidableEq, Repr

/-- Membership in a character class, with JavaScript semantics. -/
def clsMem : CharClass → Char → Bool
  | .nonSpace, c => !(isJsSpace c)
  | .wordChar, c => c.isAlpha || c.isDigit || c == '_'
  | .digit, c => c.isDigit
  | .wordDotDash, c => c.isAlpha || c.isDigit || c == '_' || c == '.' || c == '-'
  | .wordDash, c => c.isAlpha || c.isDigit || c == '_' || c == '-'

/-- Regular expressions over `Char`. -/
inductive RE where
  | fail
  | eps
  | chr (c : Char)
  | cls (k : CharClass)
  | alt (a b : RE)
  | cat (a b : RE)
  | star (a : RE)
deriving DecidableEq, Repr

namespace RE

/-- Simplifying alternation (keeps derivative terms small). -/
def mkAlt : RE → RE → RE
  | .fail, b => b
  | a, .fail => a
  | a, b => .alt a b

/-- Simplifying concatenation (keeps derivative terms small). -/
def mkCat : RE → RE → RE
  | .fail, _ => .fail
  | _, .fail => .fail
  | .eps, b => b
  | a, .eps => a
  | a, b => .cat a b

/-- Does the regex match the empty string? -/
def nullable : RE → Bool
  | .fail => false
  | .eps => true
  | .chr _ => false
  | .cls _ => false
  | .alt a b => nullable a || nullable b
  | .cat a b => nullable a && nullable b
  | .star _ => true

/-- Brzozowski derivative with respect to one character. -/
def deriv : RE → Char → RE
  | .fail, _ => .fail
  | .eps, _ => .fail
  | .chr c, a => if a = c then .eps else .fail
  | .cls k, a => if clsMem k a then .eps else .fail
  | .alt a b, c => mkAlt (deriv a c) (deriv b c)
  | .cat a b, c =>
      if nullable a then mkAlt (mkCat (deriv a c) b) (deriv b c)
      else mkCat (deriv a c) b
  | .star a, c => mkCat (deriv a c) (.star a)

/-- Does the regex match some (possibly empty) leading segment of `cs`? -/
def hitsAtStart (r : RE) : List Char → Bool
  | [] => nullable r
  | c :: cs => nullable r || hitsAtStart (deriv r c) cs

/-- Does the regex match some substring of `cs` (an unanchored search,
the semantics of JavaScript `RegExp.prototype.test`)? -/
def reTestL (r : RE) : List Char → Bool
  | [] => nullable r
  | c :: cs => hitsAtStart r (c :: cs) || reTestL r cs

/-- JavaScript `regex.test(s)`. -/
def reTest (r : RE) (s : String) : Bool :=
  reTestL r s.data

/-- Optional: `r?`. -/
def roin (r : RE) : RE := .alt r .eps

/-- Repetition: `r+`. -/
def rplus (r : RE) : RE := .cat r (.star r)

/-- Concatenation of a list of regexes. -/
def rcat (l : List RE) : RE := l.foldr .cat .eps

/-- Alternation of a list of regexes (`fail` when empty). -/
def raltL (l : List RE) : RE := l.foldr .alt .fail

/-- The regex matching a literal string. -/
def strRE (s : String) : RE := rcat (s.data.map .chr)

end RE

open RE

/-- The shared pattern prelude of every platform regex:
`(?:https?:\/\/)?(?:www\.)?` -/
def reUrlPrelude : RE :=
  rcat [roin (rcat [strRE "http", roin (.chr 's'), strRE "://"]),
        roin (strRE "www.")]

/-- From `src/constants.tsx` — the YouTube detection pattern:
`(?:https?:\/\/)?(?:www\.)?(?:youtube\.com|youtu\.be)\/(?:watch\?v=)?(?:embed\/)?(?:v\/)?(?:\S+)` -/
def youTubeRE : RE :=
  rcat [reUrlPrelude,
        .alt (strRE "youtube.com") (strRE "youtu.be"),
        .chr '/',
        roin (strRE "watch?v="),
        roin (strRE "embed/"),
        roin (strRE "v/"),
        rplus (.cls .nonSpace)]

/-- From `src/constants.tsx` — the TikTok detection pattern:
`(?:https?:\/\/)?(?:www\.)?tiktok\.com\/(?:@[\w.-]+\/video\/|v\/|embed\/|)([0-9]+)` -/
def tikTokRE : RE :=
  rcat [reUrlPrelude,
        strRE "tiktok.com/",
        raltL [rcat [.chr '@', rplus (.cls .wordDotDash), strRE "/video/"],
               strRE "v/", strRE "embed/", .eps],
        rplus (.cls .digit)]

/-- From `src/constants.tsx` — the Instagram detection pattern:
`(?:https?:\/\/)?(?:www\.)?instagram\.com\/(?:p|reel|tv)\/([\w-]+)` -/
def instagramRE : RE :=
  rcat [reUrlPrelude,
        strRE "instagram.com/",
        raltL [strRE "p", strRE "reel", strRE "tv"],
        .chr '/',
        rplus (.cls .wordDash)]

/-- From `src/constants.tsx` — the Twitter detection pattern:
`(?:https?:\/\/)?(?:www\.)?(?:twitter\.com|x\.com)\/(?:\w+)\/status\/(\d+)` -/
def twitterRE : RE :=
  rcat [reUrlPrelude,
        .alt (strRE "twitter.com") (strRE "x.com"),
        .chr '/',
        rplus (.cls .wordChar),
        strRE "/status/",
        rplus (.cls .digit)]

/-- From `src/constants.tsx` — the Facebook detection pattern:
`(?:https?:\/\/)?(?:www\.)?facebook\.com\/(?:watch\/?\?v=|video\.php\?v=|)([\w.-]+)` -/
def facebookRE : RE :=
  rcat [reUrlPrelude,
        strRE "facebook.com/",
        raltL [rcat [strRE "watch", roin (.chr '/'), strRE "?v="],
               strRE "video.php?v=", .eps],
        rplus (.cls .wordDotDash)]

/-- From `src/constants.tsx` — the LinkedIn detection pattern:
`(?:https?:\/\/)?(?:www\.)?linkedin\.com\/(?:feed\/update\/urn:li:activity:|embed\/feed\/update\/urn:li:share:|posts\/)` -/
def linkedInRE : RE :=
  rcat [reUrlPrelude,
        strRE "linkedin.com/",
        raltL [strRE "feed/update/urn:li:activity:",
               strRE "embed/feed/update/urn:li:share:",
               strRE "posts/"]]

/-- From `src/constants.tsx` — the Pinterest detection pattern:
`(?:https?:\/\/)?(?:www\.)?pinterest\.(?:com|ca|co\.uk|fr|de|es|it|jp|com\.au)\/pin\/(\d+)` -/
def pinterestRE : RE :=
  rcat [reUrlPrelude,
        strRE "pinterest.",
        raltL [strRE "com", strRE "ca", strRE "co.uk", strRE "fr",
               strRE "de", strRE "es", strRE "it", strRE "jp",
               strRE "com.au"],
        strRE "/pin/",
        rplus (.cls .digit)]

/-! ## The platform table and the detector -/

/-- From `src/types.ts` — the closed set of supported platform names. -/
inductive PlatformName where
  | YouTube | TikTok | Instagram | Twitter | Facebook | LinkedIn | Pinterest
deriving DecidableEq, Repr

/-- From `src/types.ts` — a supported platform.  The `icon` field (a React
element, pure presentation) is not modelled. -/
structure Platform where
  name : PlatformName
  color : String
  regex : RE
deriving DecidableEq, Repr

/-- From `src/constants.tsx` — the `PLATFORMS` record, as the list produced
by `Object.values(PLATFORMS)` (JavaScript object insertion order). -/
def PLATFORMS : List Platform :=
  [⟨.YouTube, "#FF0000", youTubeRE⟩,
   ⟨.TikTok, "#000000", tikTokRE⟩,
   ⟨.Instagram, "#E4405F", instagramRE⟩,
   ⟨.Twitter, "#1DA1F2", twitterRE⟩,
   ⟨.Facebook, "#1877F2", facebookRE⟩,
   ⟨.LinkedIn, "#0A66C2", linkedInRE⟩,
   ⟨.Pinterest, "#E60023", pinterestRE⟩]

/-- From `src/utils/platform.ts` — `getPlatform`: iterate
`Object.values(PLATFORMS)` in order and return the first platform whose
regex tests true on the url; `null` ( `none` ) if none does. -/
def getPlatform (url : String) : Option Platform :=
  PLATFORMS.find? (fun platform => reTest platform.regex url)

/-! ## The canonical data model (`src/types.ts`)

Fields that the TypeScript interfaces annotate as `string` but that the
resolvers can populate with a JavaScript `undefined` at runtime
(e.g. `author: data.author` where `data` is untyped upstream JSON) are
modelled as `Option String`. -/

/-- From `src/types.ts` — `DownloadOption`. -/
structure DownloadOption where
  quality : String
  url : Option String
  format : String
  size : Option String
deriving DecidableEq, Repr

/-- From `src/types.ts` — `MediaInfo`. -/
structure MediaInfo where
  title : String
  thumbnail : Option String
  duration : Option String
  author : Option String
  platform : PlatformName
  url : String
  downloadOptions : List DownloadOption
  description : Option String
deriving DecidableEq, Repr

/-! ## The resolution entry point (`src/App.tsx`, `handleFetch`) -/

/-- How `handleFetch` routes a submitted url before any resolver runs. -/
inductive FetchOutcome where
  /-- `setError('Please enter a URL.')` on a falsy (empty) url. -/
  | emptyUrlError
  /-- `setError("Unsupported platform or invalid URL. ...")` when
  `getPlatform` returned `null`. -/
  | unsupportedError
  /-- Control reaches `fetchMediaInfo(url, platform)`. -/
  | dispatched (p : Platform)
deriving DecidableEq, Repr

/-- From `src/App.tsx` — the routing logic of `handleFetch`, paired with the
number of network requests issued.  The branches before dispatch perform
none; `resolverCalls p` is an oracle for how many requests the
dispatched resolver for `p` would issue. -/
def handleFetch (url : String) (resolverCalls : Platform → Nat) :
    FetchOutcome × Nat :=
  if url = "" then (.emptyUrlError, 0)
  else
    match getPlatform url with
    | none => (.unsupportedError, 0)
    | some p => (.dispatched p, resolverCalls p)

/-! ## JavaScript stable sort by an integer key

Every `Array.prototype.sort` call in the repository uses a comparator of
the form `(a, b) => k(a) - k(b)` for an integer-valued `k` (possibly
with the arguments swapped, which is the same as negating `k`).
ECMAScript's `sort` is stable, and a stable sort under a total preorder
has a unique result, so these calls are modelled by a stable insertion
sort on the key. -/

/-- Stable insertion of `x` into `l`: `x` goes before the first element
whose key is ≥ its own. -/
def insertByKey (key : α → Int) (x : α) : List α → List α
  | [] => [x]
  | y :: ys => if key x ≤ key y then x :: y :: ys else y :: insertByKey key x ys

/-- Stable sort by an integer key (model of `array.sort((a,b) => key(a)-key(b))`). -/
def sortByKey (key : α → Int) : List α → List α
  | [] => []
  | x :: xs => insertByKey key x (sortByKey key xs)

/-- The output of a key-based sort is sorted when consecutive keys are
non-decreasing along the whole list. -/
def KeySorted (key : α → Int) (l : List α) : Prop :=
  l.Pairwise (fun a b => key a ≤ key b)

/-! ## Quality ranking (`src/unnamed/part_002` and `src/unnamed/part_003`)

Both YouTube-resolver drafts sort the extracted options against the
same fixed table, but with different comparators:

* `part_002` (line 67): `order.indexOf(a.quality) - order.indexOf(b.quality)`
* `part_003` (line 85): `(ia === -1 ? 999 : ia) - (ib === -1 ? 999 : ib)`
  where `ia = qualityOrder.indexOf(a.quality)` -/

/-- The fixed quality-rank table, shared by both drafts. -/
def QUALITY_ORDER : List String :=
  ["2160p", "1440p", "1080p", "720p", "480p", "360p", "240p", "144p", "audio"]

/-- Index of the first occurrence of `q` in a list, if any. -/
def listIdx (q : String) : List String → Option Nat
  | [] => none
  | s :: rest => if s = q then some 0 else (listIdx q rest).map (· + 1)

/-- JavaScript `QUALITY_ORDER.indexOf(q)`: first index, or `-1`. -/
def indexOfQuality (q : String) : Int :=
  match listIdx q QUALITY_ORDER with
  | some i => (i : Int)
  | none => -1

/-- The sort key of the `part_002` comparator. -/
def key002 (o : DownloadOption) : Int := indexOfQuality o.quality

/-- The sort key of the `part_003` comparator (`ia === -1 ? 999 : ia`). -/
def key003 (o : DownloadOption) : Int :=
  if indexOfQuality o.quality = -1 then 999 else indexOfQuality o.quality

/-- From `part_002` line 67 — `options.sort(...)` with the bare-`indexOf`
comparator. -/
def rank002 (options : List DownloadOption) : List DownloadOption :=
  sortByKey key002 options

/-- From `part_003` line 85 — `downloadOptions.sort(...)` with the
`-1 ↦ 999` comparator. -/
def rank003 (options : List DownloadOption) : List DownloadOption :=
  sortByKey key003 options

/-- Modelled from the spec: the rank of a quality label under the fixed
quality table — its table position for a known label (`2160p ↦ 0`, ...,
`audio ↦ 8`), and the after-everything rank `9` for an unknown label. -/
def qualityRank (q : String) : Nat :=
  match listIdx q QUALITY_ORDER with
  | some i => i
  | none => 9

/-! ## The mirror/fallback coordinator (`part_002` lines 31-42,
`part_003` lines 15-26)

Both drafts run the same loop: iterate the endpoint list in order, one
bounded-timeout request per endpoint, `break`/`return` on the first
successful response, swallow every per-endpoint failure, and report an
all-mirrors-failed error only after the list is exhausted.  `attempt e`
is the oracle for one request to endpoint `e` (`none` = thrown fetch
error, timeout, or non-ok status). -/

/-- The mirror loop: number of attempts actually made, paired with the
response of the first succeeding endpoint (or `none` after exhaustion). -/
def runMirrors (attempt : ε → Option ρ) : List ε → Nat × Option ρ
  | [] => (0, none)
  | e :: es =>
    match attempt e with
    | some r => (1, some r)
    | none =>
      let rest := runMirrors attempt es
      (rest.1 + 1, rest.2)

/-- From `part_002` lines 6-12 (also `part_003` lines 6-12, in a different
order) — the Invidious mirror list of the `part_002` draft. -/
def INV_MIRRORS : List String :=
  ["https://invidious.snopyta.org",
   "https://y.com.sb",
   "https://inv.riverside.rocks",
   "https://invidious.fdn.fr",
   "https://invidious.tiekoetter.com"]

/-! ## Deduplication by quality label

`src/backend/server.mjs` line 73 and `src/unnamed/part_005` lines
172-175 both deduplicate with
`Array.from(new Map(downloadOptions.map(item => [item.quality, item])).values())`.
A JavaScript `Map` keeps keys in first-insertion order, and `set` on an
existing key *replaces the stored value* while keeping the key's
position.  `mapSet` is exactly that `set`, and `mapFromEntries` is the
`Map` constructor folding `set` over the entry list. -/

/-- JavaScript `map.set(k, v)` on a map represented as its
insertion-ordered entry list. -/
def mapSet (m : List (String × DownloadOption)) (k : String)
    (v : DownloadOption) : List (String × DownloadOption) :=
  if m.any (fun e => e.1 == k) then
    m.map (fun e => if e.1 == k then (e.1, v) else e)
  else m ++ [(k, v)]

/-- JavaScript `new Map(entries)`. -/
def mapFromEntries (entries : List (String × DownloadOption)) :
    List (String × DownloadOption) :=
  entries.foldl (fun m kv => mapSet m kv.1 kv.2) []

/-- From `server.mjs` line 73 / `part_005` lines 172-175 — `uniqueOptions`. -/
def uniqueOptions (options : List DownloadOption) : List DownloadOption :=
  (mapFromEntries (options.map (fun o => (o.quality, o)))).map (fun e => e.2)

/-! ## The two quality-score comparators used after deduplication -/

/-- Accumulate a digit string into a natural number. -/
def digitsToNat (ds : List Char) : Nat :=
  ds.foldl (fun a c => a * 10 + (c.toNat - 48)) 0

/-- Parse a leading run of decimal digits (`none` when there is none). -/
def parseDigits (cs : List Char) : Option Nat :=
  let ds := cs.takeWhile Char.isDigit
  if ds.isEmpty then none else some (digitsToNat ds)

/-- JavaScript `parseInt(s)` (default radix): skip leading whitespace,
optional sign, then a leading run of base-10 digits; `NaN` is `none`.
(The `0x` hex-prefix form cannot arise on quality labels and is not
modelled.) -/
def parseIntJS (s : String) : Option Int :=
  match s.data.dropWhile isJsSpace with
  | '-' :: rest => (parseDigits rest).map (fun n => -(n : Int))
  | '+' :: rest => (parseDigits rest).map (fun n => (n : Int))
  | cs => (parseDigits cs).map (fun n => (n : Int))

/-- Does `needle` occur as a contiguous sublist of the second list? -/
def containsSubL (needle : List Char) : List Char → Bool
  | [] => needle.isEmpty
  | c :: cs => List.isPrefixOf needle (c :: cs) || containsSubL needle cs

/-- JavaScript `hay.includes(needle)`. -/
def containsSub (needle hay : String) : Bool :=
  containsSubL needle.data hay.data

/-- From `server.mjs` lines 76-84 — `getScore` of the backend comparator:
`'audio only'` scores 0, unparsable labels score 1, otherwise the
resolution plus a 10000 bonus unless the label says `'no audio'`. -/
def getScoreServer (quality : String) : Int :=
  if containsSub "audio only" quality then 0
  else
    match parseIntJS quality with
    | none => 1
    | some res => res + (if containsSub "no audio" quality then 0 else 10000)

/-- From `part_005` lines 177-183 — `getScore` of the serverless comparator:
like the backend one but without the with-audio bonus. -/
def getScoreHandler (quality : String) : Int :=
  if containsSub "audio only" quality then 0
  else
    match parseIntJS quality with
    | none => 1
    | some res => res

/-- Sort key of `uniqueOptions.sort((a,b) => getScore(b.quality) - getScore(a.quality))`
in `server.mjs` (descending score = ascending negated score). -/
def keyServer (o : DownloadOption) : Int := -(getScoreServer o.quality)

/-- Sort key of the analogous sort in `part_005`. -/
def keyHandler (o : DownloadOption) : Int := -(getScoreHandler o.quality)

/-- The Normalizer's deduplicate-and-rank step, generic in the ranking
key: `uniqueOptions` followed by the stable sort. -/
def normalizeOptions (key : DownloadOption → Int) (l : List DownloadOption) :
    List DownloadOption :=
  sortByKey key (uniqueOptions l)

/-! ## Size normalisation (`part_002` line 53, `part_003` line 70,
`server.mjs` lines 44/57/68, `part_005` lines 144/166)

`(bytes / 1024 / 1024).toFixed(d) + ' MB'`.  For byte counts below
2^53 the double `bytes / 1024 / 1024` is exactly the rational
`bytes / 2^20`, and `toFixed` rounds that rational to `d` decimals,
ties upward — which is what the integer arithmetic below computes. -/

/-- Model of `(bytes / 1024 / 1024).toFixed(1) + " MB"` for a natural byte count. -/
def fmtMB1 (bytes : Nat) : String :=
  let t := (bytes * 10 + 524288) / 1048576
  toString (t / 10) ++ "." ++ toString (t % 10) ++ " MB"

/-- Zero-padded two-digit rendering of `n < 100`. -/
def pad2 (n : Nat) : String :=
  if n < 10 then "0" ++ toString n else toString n

/-- Model of `(bytes / 1024 / 1024).toFixed(2) + " MB"` for a natural byte count. -/
def fmtMB2 (bytes : Nat) : String :=
  let t := (bytes * 100 + 524288) / 1048576
  toString (t / 100) ++ "." ++ pad2 (t % 100) ++ " MB"

/-- From `part_002` line 53 (and `server.mjs`, `part_005`) —
`s.contentLength ? \`...toFixed(1) MB\` : undefined`. -/
def sizeField002 (contentLength : Option Nat) : Option String :=
  match contentLength with
  | some n => some (fmtMB1 n)
  | none => none

/-- From `part_003` line 70 — `s.size ? \`...toFixed(2) MB\` : undefined`. -/
def sizeField003 (size : Option Nat) : Option String :=
  match size with
  | some n => some (fmtMB2 n)
  | none => none

/-! ## Best-audio selection (`part_002` line 47, `part_003` line 63,
`server.mjs` line 63, `part_005` lines 156-158)

All four sites run
`audioStreams.sort((a, b) => (b.bitrate || 0) - (a.bitrate || 0))[0]`:
a stable descending sort on the (defaulted) bitrate followed by taking
the first element. -/

/-- Stable descending sort on `f`, then take element `[0]`
(`undefined`/`none` on an empty list). -/
def sortDescHead (f : α → Int) (l : List α) : Option α :=
  (sortByKey (fun a => -(f a)) l).head?

/-- Modelled from the spec: pick the element with the numerically
highest `f`, ties broken by input order — first wins. -/
def firstMaxBy (f : α → Int) : List α → Option α
  | [] => none
  | x :: xs =>
    match firstMaxBy f xs with
    | none => some x
    | some y => some (if f x < f y then y else x)

/-! ## JavaScript value helpers shared by the resolver embeddings -/

/-- JavaScript truthiness of an optional string (`undefined`/absent and
`""` are falsy). -/
def truthyStr : Option String → Bool
  | none => false
  | some s => !(s == "")

/-- JavaScript `a || b` where `a` is an optional string and `b` a
string. -/
def jsOrStr (a : Option String) (b : String) : String :=
  match a with
  | some s => if s = "" then b else s
  | none => b

/-- JavaScript `a || b` where both sides are optional strings. -/
def jsOrOpt (a b : Option String) : Option String :=
  if truthyStr a then a else b

/-- JavaScript `field?.includes(needle)` used as a filter condition
(`undefined` is falsy). -/
def optIncludes (field : Option String) (needle : String) : Bool :=
  match field with
  | some s => containsSub needle s
  | none => false

/-- Model of `new Date(s * 1000).toISOString().substr(11, 8)` — the `HH:MM:SS`
slice of the ISO timestamp (hours wrap at 24). -/
def hhmmss (s : Nat) : String :=
  pad2 ((s / 3600) % 24) ++ ":" ++ pad2 ((s % 3600) / 60) ++ ":" ++ pad2 (s % 60)

/-- Model of `new Date(s * 1000).toISOString().substr(14, 5)` — the `MM:SS`
slice of the ISO timestamp. -/
def mmss (s : Nat) : String :=
  pad2 ((s % 3600) / 60) ++ ":" ++ pad2 (s % 60)

/-- JavaScript `s.slice(0, n)` (by code point; structural, so that the
kernel can evaluate it). -/
def strTake (s : String) (n : Nat) : String :=
  String.mk (s.data.take n)

/-- JavaScript `s.startsWith(pre)` (structural). -/
def strStartsWith (s pre : String) : Bool :=
  List.isPrefixOf pre.data s.data

/-- JavaScript `s.split('.')` on the character list (structural). -/
def splitOnDot : List Char → List (List Char)
  | [] => [[]]
  | c :: rest =>
    match splitOnDot rest with
    | [] => [[]]
    | seg :: segs => if c = '.' then [] :: seg :: segs else (c :: seg) :: segs

/-- JavaScript `s.split('.').pop() || dflt`. -/
def splitPop (s dflt : String) : String :=
  let last := (splitOnDot s.data).getLastD []
  if last = [] then dflt else String.mk last

/-! ## The `part_002` provider resolvers

`src/unnamed/part_002` (first document) is the resolver module cited by
the claims.  Each resolver is embedded with its network I/O abstracted
into an oracle argument carrying the already-parsed upstream JSON
(`none` = thrown fetch error or non-ok response); everything from the
parsed response onward is translated directly from the source. -/

/-- One entry of the Invidious `formatStreams`/`adaptiveFormats`
arrays.  Numeric fields arrive as JSON numbers or numeric strings
(`contentLength`); they are modelled already converted, with `none`
for an absent or otherwise falsy value. -/
structure YTStream where
  type : Option String
  qualityLabel : Option String
  height : Option Int
  bitrate : Option Int
  url : Option String
  contentLength : Option Nat
deriving DecidableEq, Repr

/-- One entry of Invidious `videoThumbnails`. -/
structure YTThumb where
  quality : Option String
  url : Option String
deriving DecidableEq, Repr

/-- The Invidious video document used by `fetchYouTubeInfo`. -/
structure YTData where
  title : Option String
  videoThumbnails : Option (List YTThumb)
  author : Option String
  description : Option String
  lengthSeconds : Option Nat
  formatStreams : Option (List YTStream)
  adaptiveFormats : Option (List YTStream)
deriving DecidableEq, Repr

/-- From `part_002` line 47 —
`audioStreams.sort((a, b) => (b.bitrate || 0) - (a.bitrate || 0))[0]`. -/
def bestAudio002 (audioStreams : List YTStream) : Option YTStream :=
  sortDescHead (fun s => s.bitrate.getD 0) audioStreams

/-- From `part_002` lines 26-82 — `fetchYouTubeInfo`.  `videoId` is the
result of `getYoutubeVideoId(url)`; `attempt` is the oracle for one
mirror request. -/
def fetchYouTubeInfo002 (videoId : Option String)
    (attempt : String → Option YTData) : Except String MediaInfo :=
  match videoId with
  | none => .error "Invalid YouTube URL"
  | some vid =>
    match (runMirrors attempt INV_MIRRORS).2 with
    | none => .error "All YouTube mirrors failed. Try again later."
    | some data =>
      let streams := data.formatStreams.getD [] ++ data.adaptiveFormats.getD []
      let videoStreams := streams.filter
        (fun s => optIncludes s.type "video/mp4" && truthyStr s.qualityLabel)
      let audioStreams := streams.filter (fun s => optIncludes s.type "audio")
      let options : List DownloadOption := videoStreams.map (fun s =>
        { quality := jsOrStr s.qualityLabel
            ((match s.height with
              | some h => toString h
              | none => "undefined") ++ "p"),
          url := s.url, format := "mp4",
          size := sizeField002 s.contentLength })
      let options := options ++
        (match bestAudio002 audioStreams with
         | some b => [{ quality := "audio", url := b.url, format := "m4a",
                        size := sizeField002 b.contentLength }]
         | none => [])
      if options.isEmpty then .error "No downloadable streams (private/live?)"
      else .ok {
        title := jsOrStr data.title "YouTube Video",
        thumbnail := jsOrOpt
          ((data.videoThumbnails.map (fun ts =>
            ts.find? (fun t => t.quality == some "maxresdefault"))).join.bind
            (fun t => t.url))
          (data.videoThumbnails.bind (fun ts => ts.head?.bind (fun t => t.url))),
        duration := some (match data.lengthSeconds with
          | some s => if s = 0 then "LIVE" else hhmmss s
          | none => "LIVE"),
        author := data.author,
        platform := .YouTube,
        url := "https://youtube.com/watch?v=" ++ vid,
        description := data.description.map (fun d => strTake d 500),
        downloadOptions := rank002 options }

/-- The `data` object of a tikwm response (`author?.nickname` is
modelled flattened). -/
structure TikTokData where
  hdplay : Option String
  play : Option String
  size : Option Nat
  music : Option String
  title : Option String
  cover : Option String
  duration : Option Nat
  authorNickname : Option String
deriving DecidableEq, Repr

/-- A parsed tikwm response. -/
structure TikTokResponse where
  code : Int
  msg : Option String
  data : TikTokData
deriving DecidableEq, Repr

/-- From `part_002` — `d.music.startsWith('http') ? d.music : 'https://www.tikwm.com' + d.music`. -/
def tikwmMusicUrl (music : String) : String :=
  if strStartsWith music "http" then music else "https://www.tikwm.com" ++ music

/-- From `part_002` lines 87-124 — `fetchTikTokInfo` (`resp = none` models a
non-ok response: `'TikTok API down'`). -/
def fetchTikTokInfo002 (url : String) (resp : Option TikTokResponse) :
    Except String MediaInfo :=
  match resp with
  | none => .error "TikTok API down"
  | some json =>
    if json.code ≠ 0 then .error (jsOrStr json.msg "TikTok fetch failed")
    else
      let d := json.data
      let videoUrl := jsOrOpt d.hdplay d.play
      let opts : List DownloadOption :=
        (if truthyStr videoUrl then
          [{ quality := "HD Video", url := videoUrl, format := "mp4",
             size := sizeField002 d.size }]
         else []) ++
        (if truthyStr d.music then
          [{ quality := "Audio",
             url := some (tikwmMusicUrl (d.music.getD "")),
             format := "mp3", size := none }]
         else [])
      if opts.isEmpty then .error "No media found"
      else .ok {
        title := jsOrStr d.title "TikTok Video",
        thumbnail := d.cover,
        duration := some (match d.duration with
          | some s => if s = 0 then "00:00" else mmss s
          | none => "00:00"),
        author := some (jsOrStr d.authorNickname "Unknown"),
        platform := .TikTok,
        url := url,
        description := d.title,
        downloadOptions := opts }

/-- One entry of `tweet.media.all` (the code reads `m.url` without a
guard, so `url` is a plain string). -/
structure TwMedia where
  type : Option String
  height : Option Int
  url : String
  thumbnailUrl : Option String
deriving DecidableEq, Repr

/-- The `tweet` object of a vxtwitter response. -/
structure Tweet where
  text : Option String
  mediaAll : Option (List TwMedia)
  userName : Option String
  userScreenName : Option String
  tweetURL : Option String
deriving DecidableEq, Repr

/-- A parsed vxtwitter response. -/
structure TwResponse where
  tweet : Option Tweet
  message : Option String
deriving DecidableEq, Repr

/-- The options one `media.forEach` iteration pushes in
`fetchTwitterInfo`. -/
def twOptionsOf (m : TwMedia) : List DownloadOption :=
  if m.type == some "video" || m.type == some "gif" then
    [{ quality := (match m.height with
        | some h => if h = 0 then "Video" else toString h ++ "p"
        | none => "Video"),
       url := some m.url, format := splitPop m.url "mp4", size := none }]
  else if m.type == some "photo" then
    [{ quality := "Photo", url := some m.url, format := splitPop m.url "jpg",
       size := none }]
  else []

/-- From `part_002` lines 129-168 — `fetchTwitterInfo`. -/
def fetchTwitterInfo002 (url : String) (resp : Option TwResponse) :
    Except String MediaInfo :=
  match resp with
  | none => .error "Twitter API error"
  | some json =>
    match json.tweet with
    | none => .error (jsOrStr json.message "Tweet not found")
    | some t =>
      let media := t.mediaAll.getD []
      let opts := (media.map twOptionsOf).flatten
      if opts.isEmpty then .error "No media in tweet"
      else .ok {
        title := strTake (jsOrStr t.text "") 100 ++ "...",
        thumbnail := jsOrOpt (media.head?.bind (fun m => m.thumbnailUrl))
          (media.head?.map (fun m => m.url)),
        duration := none,
        author := jsOrOpt t.userName t.userScreenName,
        platform := .Twitter,
        url := jsOrStr t.tweetURL url,
        description := t.text,
        downloadOptions := opts }

/-- One entry of the ddinstagram `carousel` array. -/
structure InstaCarouselItem where
  video_url : Option String
  image_url : Option String
deriving DecidableEq, Repr

/-- The `data` object of a ddinstagram response. -/
structure InstaData where
  video_url : Option String
  image_url : Option String
  carousel : Option (List InstaCarouselItem)
  caption : Option String
  thumbnail : Option String
  username : Option String
deriving DecidableEq, Repr

/-- A parsed ddinstagram response. -/
structure InstaResponse where
  success : Bool
  message : Option String
  data : InstaData
deriving DecidableEq, Repr

/-- The options the `d.carousel.forEach((item, i) => ...)` loop pushes
(1-based slide numbers). -/
def instaSlides : Nat → List InstaCarouselItem → List DownloadOption
  | _, [] => []
  | i, item :: rest =>
    (if truthyStr item.video_url then
      { quality := "Slide " ++ toString (i + 1) ++ " (Video)",
        url := item.video_url, format := "mp4", size := none }
     else
      { quality := "Slide " ++ toString (i + 1) ++ " (Image)",
        url := item.image_url, format := "jpg", size := none }) ::
    instaSlides (i + 1) rest

/-- From `part_002` lines 173-213 — `fetchInstagramInfo`. -/
def fetchInstagramInfo002 (url : String) (resp : Option InstaResponse) :
    Except String MediaInfo :=
  match resp with
  | none => .error "Instagram API error"
  | some json =>
    if !json.success then .error (jsOrStr json.message "Instagram fetch failed")
    else
      let d := json.data
      let opts : List DownloadOption :=
        (if truthyStr d.video_url then
          [{ quality := "Video", url := d.video_url, format := "mp4",
             size := none }]
         else []) ++
        (if truthyStr d.image_url then
          [{ quality := "Image", url := d.image_url, format := "jpg",
             size := none }]
         else []) ++
        (match d.carousel with
         | some items => instaSlides 0 items
         | none => [])
      if opts.isEmpty then .error "No media found"
      else .ok {
        title := jsOrStr (d.caption.map (fun c => strTake c 100)) "Instagram Post",
        thumbnail := jsOrOpt d.thumbnail d.image_url,
        duration := none,
        author := d.username,
        platform := .Instagram,
        url := url,
        description := d.caption,
        downloadOptions := opts }

/-- A parsed fbdownloader response. -/
structure FBResponse where
  success : Bool
  message : Option String
  hd : Option String
  sd : Option String
  thumbnail : Option String
deriving DecidableEq, Repr

/-- From `part_002` lines 218-244 — `fetchFacebookInfo`. -/
def fetchFacebookInfo002 (url : String) (resp : Option FBResponse) :
    Except String MediaInfo :=
  match resp with
  | none => .error "Facebook API error"
  | some json =>
    if !json.success then .error (jsOrStr json.message "Facebook fetch failed")
    else
      let opts : List DownloadOption :=
        (if truthyStr json.hd then
          [{ quality := "HD", url := json.hd, format := "mp4", size := none }]
         else []) ++
        (if truthyStr json.sd then
          [{ quality := "SD", url := json.sd, format := "mp4", size := none }]
         else [])
      if opts.isEmpty then .error "No video found (maybe private)"
      else .ok {
        title := "Facebook Video",
        thumbnail := json.thumbnail,
        duration := none,
        author := some "Facebook User",
        platform := .Facebook,
        url := url,
        description := some "",
        downloadOptions := opts }

/-- A parsed pinloader response. -/
structure PinResponse where
  success : Bool
  message : Option String
  video : Option String
  image : Option String
  title : Option String
  author : Option String
  description : Option String
deriving DecidableEq, Repr

/-- From `part_002` lines 249-283 — `fetchPinterestInfo`. -/
def fetchPinterestInfo002 (url : String) (resp : Option PinResponse) :
    Except String MediaInfo :=
  match resp with
  | none => .error "Pinterest API error"
  | some json =>
    if !json.success then .error (jsOrStr json.message "Pinterest fetch failed")
    else
      let opts : List DownloadOption :=
        (if truthyStr json.video then
          [{ quality := "Video", url := json.video, format := "mp4",
             size := none }]
         else []) ++
        (if truthyStr json.image then
          [{ quality := "Image", url := json.image, format := "jpg",
             size := none }]
         else [])
      if opts.isEmpty then .error "No media found"
      else .ok {
        title := jsOrStr json.title "Pinterest Pin",
        thumbnail := jsOrOpt json.image json.video,
        duration := none,
        author := some (jsOrStr json.author "Unknown"),
        platform := .Pinterest,
        url := url,
        description := json.description,
        downloadOptions := opts }

/-- The oracle bundle for one `fetchMediaInfo` call: the extracted
YouTube id plus one parsed upstream response per platform service. -/
structure Upstream where
  ytVideoId : Option String
  ytMirror : String → Option YTData
  tiktok : Option TikTokResponse
  twitter : Option TwResponse
  instagram : Option InstaResponse
  facebook : Option FBResponse
  pinterest : Option PinResponse

/-- From `part_002` lines 274-292 — `fetchMediaInfo`: the closed dispatch on
`platform.name` (the surrounding `catch` re-throws the same message and
is the identity on successes). -/
def fetchMediaInfo002 (url : String) (platform : Platform) (u : Upstream) :
    Except String MediaInfo :=
  match platform.name with
  | .YouTube => fetchYouTubeInfo002 u.ytVideoId u.ytMirror
  | .TikTok => fetchTikTokInfo002 url u.tiktok
  | .Twitter => fetchTwitterInfo002 url u.twitter
  | .Instagram => fetchInstagramInfo002 url u.instagram
  | .Facebook => fetchFacebookInfo002 url u.facebook
  | .Pinterest => fetchPinterestInfo002 url u.pinterest
  | .LinkedIn => .error "LinkedIn not supported (no public API)"

/-! ## The `part_003` mirror helper -/

/-- From `part_003` lines 6-12 — the mirror list of the `part_003` draft. -/
def INV_MIRRORS_003 : List String :=
  ["https://invidious.io.lol",
   "https://invidious.snopyta.org",
   "https://y.com.sb",
   "https://inv.riverside.rocks",
   "https://invidious.fdn.fr"]

/-- From `part_003` lines 14-26 — `getInvidiousUrl`: the same loop shape as
the `part_002` mirror loop, issuing one bounded-timeout HEAD request
per mirror (`headOk u` = the request succeeded with an ok status) and
returning the first reachable url. -/
def getInvidiousUrl003 (headOk : String → Bool) (path : String) :
    Except String String :=
  match (runMirrors
      (fun base => if headOk (base ++ path) then some (base ++ path) else none)
      INV_MIRRORS_003).2 with
  | some u => .ok u
  | none => .error "All Invidious mirrors are down"

/-! ## The serverless YouTube handler (`src/unnamed/part_005`) -/

/-- One entry of the Invidious stream arrays as read by the handler. -/
structure InvStream where
  url : Option String
  qualityLabel : Option String
  container : Option String
  size : Option Nat
  type : Option String
  bitrate : Option Int
deriving DecidableEq, Repr

/-- The Invidious video document as read by the handler. -/
structure InvData where
  title : Option String
  author : Option String
  description : Option String
  lengthSeconds : Option Nat
  formatStreams : Option (List InvStream)
  adaptiveFormats : Option (List InvStream)
deriving DecidableEq, Repr

/-- A parsed YouTube oEmbed response (the oEmbed schema always carries
`title` and `author_name`, and the handler reads them unguarded). -/
structure OEmbedData where
  title : String
  author_name : String
deriving DecidableEq, Repr

/-- The three ways the handler responds. -/
inductive HandlerResult where
  /-- `res.status(400).json({ error })`. -/
  | badRequest (msg : String)
  /-- `res.status(500).json({ error })`. -/
  | serverError (msg : String)
  /-- `res.status(200).json(mediaInfo)`. -/
  | ok (info : MediaInfo)
deriving DecidableEq, Repr

/-- From `part_005` lines 87-95 — the handler's Invidious instance list. -/
def INVIDIOUS_INSTANCES_005 : List String :=
  ["https://vid.puffyan.us",
   "https://invidious.projectsegfau.lt",
   "https://inv.nadeko.net",
   "https://invidious.privacyredirect.com"]

/-- One iteration of the handler's instance loop: the attempt succeeds
only when the fetch parsed and `data.formatStreams && data.formatStreams.length > 0`. -/
def handlerAttempt (inv : String → Option InvData) (inst : String) :
    Option InvData :=
  match inv inst with
  | some data =>
      if (data.formatStreams.getD []).isEmpty then none else some data
  | none => none

/-- The canonical `https://www.youtube.com/watch?v=` + id url. -/
def watchUrl (videoId : String) : String :=
  "https://www.youtube.com/watch?v=" ++ videoId

/-- The `'Watch on YouTube'` substitute option the handler emits when it
has no usable artifact. -/
def fallbackOption (videoId : String) : DownloadOption :=
  { quality := "Watch on YouTube", url := some (watchUrl videoId),
    format := "link", size := none }

/-- The `maxresdefault` thumbnail url the handler always uses. -/
def maxresThumb (videoId : String) : String :=
  "https://img.youtube.com/vi/" ++ videoId ++ "/maxresdefault.jpg"

/-- From `part_005` lines 43-210 — the Vercel serverless YouTube handler.
`url` is the query parameter (`none` = missing), `videoIdMatch` the
result of the id-extraction `match`, `oembed` the parsed oEmbed
response (`none` = non-ok, which the `catch` turns into the 500), and
`inv` the per-instance Invidious oracle.  (The 500 message's leading
lock emoji is omitted.) -/
def ytHandler005 (url : Option String) (videoIdMatch : Option String)
    (oembed : Option OEmbedData) (inv : String → Option InvData) :
    HandlerResult :=
  match url with
  | none => .badRequest "URL parameter is required"
  | some u =>
    if u = "" then .badRequest "URL parameter is required"
    else if !(reTest youTubeRE u) then .badRequest "Invalid YouTube URL"
    else
      match videoIdMatch with
      | none => .badRequest "Could not extract video ID"
      | some videoId =>
        match oembed with
        | none => .serverError
            "Failed to fetch video. It may be private, age-restricted, or unavailable."
        | some oe =>
          match (runMirrors (handlerAttempt inv) INVIDIOUS_INSTANCES_005).2 with
          | none => .ok {
              title := oe.title,
              thumbnail := some (maxresThumb videoId),
              duration := some "N/A",
              author := some oe.author_name,
              platform := .YouTube,
              url := watchUrl videoId,
              description := some "Watch on YouTube",
              downloadOptions := [fallbackOption videoId] }
          | some videoData =>
            let fsOpts : List DownloadOption :=
              ((videoData.formatStreams.getD []).filter
                (fun f => truthyStr f.url && truthyStr f.qualityLabel)).map
                (fun f =>
                  { quality := f.qualityLabel.getD "",
                    url := f.url,
                    format := jsOrStr f.container "mp4",
                    size := sizeField002 f.size })
            let audioFormats := (videoData.adaptiveFormats.getD []).filter
              (fun f => optIncludes f.type "audio")
            let audioOpts : List DownloadOption :=
              match sortDescHead (fun f => f.bitrate.getD 0) audioFormats with
              | some bestAudio =>
                  [{ quality := "audio only", url := bestAudio.url,
                     format := "m4a", size := sizeField002 bestAudio.size }]
              | none => []
            let sorted := sortByKey keyHandler (uniqueOptions (fsOpts ++ audioOpts))
            .ok {
              title := jsOrStr videoData.title oe.title,
              thumbnail := some (maxresThumb videoId),
              duration := some (match videoData.lengthSeconds with
                | some s => if s = 0 then "N/A" else hhmmss s
                | none => "N/A"),
              author := some (jsOrStr videoData.author oe.author_name),
              platform := .YouTube,
              url := watchUrl videoId,
              description := some (jsOrStr
                (videoData.description.map (fun d => strTake d 500)) ""),
              downloadOptions := if sorted.isEmpty then [fallbackOption videoId]
                else sorted }

/-! ## Concrete demonstration values used by witnesses -/

/-- A 128 kbps audio stream. -/
def demoAudio128 : YTStream :=
  ⟨some "audio/mp4", none, none, some 128, some "https://cdn/a128.m4a", none⟩

/-- The first of two audio streams tied at the highest bitrate. -/
def demoAudio192a : YTStream :=
  ⟨some "audio/mp4", none, none, some 192, some "https://cdn/a192-first.m4a", none⟩

/-- The second stream tied at the highest bitrate. -/
def demoAudio192b : YTStream :=
  ⟨some "audio/webm", none, none, some 192, some "https://cdn/a192-second.webm", none⟩

/-! ## Claim theorems -/

/-- A tikwm response with one video and one audio artifact. -/
def demoTikTok : TikTokResponse :=
  ⟨0, none, ⟨some "https://cdn.tikwm.com/video/hd.mp4", none, some 2097152,
    some "/music/1.mp3", some "My clip", some "https://cdn.tikwm.com/cover.jpg",
    some 61, some "creator"⟩⟩

/-- What `fetchTikTokInfo002` resolves `demoTikTok` to. -/
def demoTikTokInfo : MediaInfo :=
  { title := "My clip", thumbnail := some "https://cdn.tikwm.com/cover.jpg",
    duration := some "01:01", author := some "creator",
    platform := .TikTok, url := "https://www.tiktok.com/@creator/video/123",
    downloadOptions :=
      [⟨"HD Video", some "https://cdn.tikwm.com/video/hd.mp4", "mp4", some "2.0 MB"⟩,
       ⟨"Audio", some "https://www.tikwm.com/music/1.mp3", "mp3", none⟩],
    description := some "My clip" }

/-- The oracle bundle used by the dispatch witness. -/
def demoUpstream : Upstream :=
  ⟨none, fun _ => none, some demoTikTok, none, none, none, none⟩

/-- An Invidious document whose only stream has no url: a well-formed
response with zero usable artifacts. -/
def demoNoUsable : InvData :=
  ⟨some "A video", some "An author", none, some 10,
   some [⟨none, some "720p", some "mp4", none, none, none⟩], some []⟩

/-- The instance oracle serving `demoNoUsable` from the first mirror. -/
def demoInv : String → Option InvData :=
  fun inst => if inst = "https://vid.puffyan.us" then some demoNoUsable else none

/-! # Theorems

Everything below is proof; all definitions are above.  General lemmas
about the sort, deduplication and mirror models come first, then the
claim theorems `c1..c10` with their witnesses and counterexamples. -/

theorem perm_insertByKey (key : α → Int) (x : α) :
    ∀ l : List α, List.Perm (insertByKey key x l) (x :: l) := by
  intro l
  induction l with
  | nil => simp [insertByKey]
  | cons y ys ih =>
    unfold insertByKey
    split
    · exact List.Perm.refl _
    · exact (ih.cons y).trans (List.Perm.swap x y ys)

theorem perm_sortByKey (key : α → Int) :
    ∀ l : List α, List.Perm (sortByKey key l) l := by
  intro l
  induction l with
  | nil => exact List.Perm.refl _
  | cons x xs ih =>
    exact (perm_insertByKey key x (sortByKey key xs)).trans (ih.cons x)

theorem mem_insertByKey (key : α → Int) (x a : α) (l : List α) :
    a ∈ insertByKey key x l ↔ a = x ∨ a ∈ l := by
  rw [(perm_insertByKey key x l).mem_iff]
  simp

theorem keySorted_insertByKey (key : α → Int) (x : α) {l : List α}
    (h : KeySorted key l) : KeySorted key (insertByKey key x l) := by
  induction l with
  | nil => simp [insertByKey, KeySorted]
  | cons y ys ih =>
    rw [KeySorted, List.pairwise_cons] at h
    obtain ⟨hy, hys⟩ := h
    unfold insertByKey
    split
    · rename_i hxy
      refine List.Pairwise.cons ?_ (List.Pairwise.cons hy hys)
      intro z hz
      rcases List.mem_cons.mp hz with rfl | hz
      · exact hxy
      · exact le_trans hxy (hy z hz)
    · rename_i hxy
      refine List.Pairwise.cons ?_ (ih hys)
      intro z hz
      rcases (mem_insertByKey key x z ys).mp hz with rfl | hz
      · exact le_of_lt (lt_of_not_le hxy)
      · exact hy z hz

theorem keySorted_sortByKey (key : α → Int) :
    ∀ l : List α, KeySorted key (sortByKey key l) := by
  intro l
  induction l with
  | nil => simp [sortByKey, KeySorted]
  | cons x xs ih => exact keySorted_insertByKey key x ih

theorem sortByKey_of_keySorted (key : α → Int) :
    ∀ {l : List α}, KeySorted key l → sortByKey key l = l := by
  intro l
  induction l with
  | nil => intro _; rfl
  | cons x xs ih =>
    intro h
    rw [KeySorted, List.pairwise_cons] at h
    obtain ⟨hx, hxs⟩ := h
    rw [sortByKey, ih hxs]
    cases xs with
    | nil => rfl
    | cons y ys =>
      rw [insertByKey, if_pos (hx y (List.mem_cons_self y ys))]

theorem filter_insertByKey (key : α → Int) (x : α) (c : Int) :
    ∀ l : List α,
      (insertByKey key x l).filter (fun a => key a == c) =
        if key x == c then x :: l.filter (fun a => key a == c)
        else l.filter (fun a => key a == c) := by
  intro l
  induction l with
  | nil =>
    simp only [insertByKey, List.filter_cons, List.filter_nil]
  | cons y ys ih =>
    unfold insertByKey
    split
    · simp only [List.filter_cons]
    · rename_i hxy
      have hyx : key y < key x := lt_of_not_le hxy
      by_cases hxc : key x = c
      · have hyc : (key y == c) = false := by
          simp only [beq_eq_false_iff_ne, ne_eq]
          intro hy
          exact absurd (hy ▸ hxc ▸ rfl : key y = key x) (ne_of_lt hyx)
        simp [List.filter_cons, hyc, ih, hxc]
      · have hxc' : (key x == c) = false := beq_eq_false_iff_ne.mpr hxc
        simp [List.filter_cons, ih, hxc']

/-- Stability of the JavaScript sort: for every key value `c`, the
subsequence of elements whose key is `c` is unchanged by the sort. -/
theorem filter_sortByKey (key : α → Int) (c : Int) :
    ∀ l : List α,
      (sortByKey key l).filter (fun a => key a == c) =
        l.filter (fun a => key a == c) := by
  intro l
  induction l with
  | nil => rfl
  | cons x xs ih =>
    rw [sortByKey, filter_insertByKey key x c, ih, List.filter_cons]

theorem insertByKey_ne_nil (key : α → Int) (x : α) (l : List α) :
    insertByKey key x l ≠ [] := by
  cases l with
  | nil => simp [insertByKey]
  | cons y ys =>
    unfold insertByKey
    split <;> simp

theorem listIdx_lt_length (q : String) :
    ∀ (l : List String) (i : Nat), listIdx q l = some i → i < l.length := by
  intro l
  induction l with
  | nil => intro i h; exact absurd h (by simp [listIdx])
  | cons s rest ih =>
    intro i h
    unfold listIdx at h
    split at h
    · cases h; simp
    · simp only [Option.map_eq_some'] at h
      obtain ⟨j, hj, rfl⟩ := h
      have := ih j hj
      simp only [List.length_cons]
      omega

theorem indexOfQuality_of_some {q : String} {i : Nat}
    (h : listIdx q QUALITY_ORDER = some i) : indexOfQuality q = i := by
  unfold indexOfQuality; rw [h]

theorem indexOfQuality_of_none {q : String}
    (h : listIdx q QUALITY_ORDER = none) : indexOfQuality q = -1 := by
  unfold indexOfQuality; rw [h]

theorem qualityRank_of_some {q : String} {i : Nat}
    (h : listIdx q QUALITY_ORDER = some i) : qualityRank q = i := by
  unfold qualityRank; rw [h]

theorem qualityRank_of_none {q : String}
    (h : listIdx q QUALITY_ORDER = none) : qualityRank q = 9 := by
  unfold qualityRank; rw [h]

/-- The `part_003` key is the spec-side rank, injected monotonically
into the integers (`9 ↦ 999`). -/
theorem key003_eq (o : DownloadOption) :
    key003 o = if qualityRank o.quality = 9 then 999 else (qualityRank o.quality : Int) := by
  unfold key003
  cases h : listIdx o.quality QUALITY_ORDER with
  | none =>
    rw [indexOfQuality_of_none h, qualityRank_of_none h]
    simp
  | some i =>
    have hi : i < QUALITY_ORDER.length := listIdx_lt_length _ _ _ h
    have hi9 : i < 9 := by
      simpa [QUALITY_ORDER, List.length_cons] using hi
    rw [indexOfQuality_of_some h, qualityRank_of_some h,
      if_neg (by omega), if_neg (by omega)]

theorem qualityRank_le_nine (q : String) : qualityRank q ≤ 9 := by
  cases h : listIdx q QUALITY_ORDER with
  | none => rw [qualityRank_of_none h]
  | some i =>
    have hi : i < QUALITY_ORDER.length := listIdx_lt_length _ _ _ h
    have hi9 : i < 9 := by
      simpa [QUALITY_ORDER, List.length_cons] using hi
    rw [qualityRank_of_some h]
    omega

theorem key003_le_iff (a b : DownloadOption) :
    (key003 a ≤ key003 b) ↔ qualityRank a.quality ≤ qualityRank b.quality := by
  rw [key003_eq, key003_eq]
  have ha := qualityRank_le_nine a.quality
  have hb := qualityRank_le_nine b.quality
  by_cases h1 : qualityRank a.quality = 9 <;>
    by_cases h2 : qualityRank b.quality = 9 <;>
      simp [h1, h2] <;> omega

theorem keys_mapSet (m : List (String × DownloadOption)) (k : String)
    (v : DownloadOption) :
    (mapSet m k v).map Prod.fst =
      if m.any (fun e => e.1 == k) then m.map Prod.fst
      else m.map Prod.fst ++ [k] := by
  unfold mapSet
  split
  · simp only [List.map_map]
    refine List.map_congr_left ?_
    intro e _
    simp only [Function.comp_apply]
    split <;> rfl
  · simp

theorem notMem_keys_of_any_false {m : List (String × DownloadOption)}
    {k : String} (h : m.any (fun e => e.1 == k) = false) :
    k ∉ m.map Prod.fst := by
  intro hk
  obtain ⟨e, he, rfl⟩ := List.mem_map.mp hk
  have := List.any_eq_false.mp h e he
  simp at this

theorem nodup_keys_mapSet {m : List (String × DownloadOption)}
    (k : String) (v : DownloadOption)
    (h : (m.map Prod.fst).Nodup) : ((mapSet m k v).map Prod.fst).Nodup := by
  rw [keys_mapSet]
  split
  · exact h
  · rename_i hany
    have hnot := notMem_keys_of_any_false (Bool.eq_false_iff.mpr hany)
    simp [List.nodup_append, h, hnot]

theorem nodup_keys_foldl_mapSet :
    ∀ (entries acc : List (String × DownloadOption)),
      (acc.map Prod.fst).Nodup →
      ((entries.foldl (fun m kv => mapSet m kv.1 kv.2) acc).map Prod.fst).Nodup := by
  intro entries
  induction entries with
  | nil => intro acc h; exact h
  | cons kv rest ih =>
    intro acc h
    exact ih (mapSet acc kv.1 kv.2) (nodup_keys_mapSet kv.1 kv.2 h)

theorem foldl_mapSet_of_nodup :
    ∀ (entries acc : List (String × DownloadOption)),
      ((acc ++ entries).map Prod.fst).Nodup →
      entries.foldl (fun m kv => mapSet m kv.1 kv.2) acc = acc ++ entries := by
  intro entries
  induction entries with
  | nil => intro acc _; simp
  | cons kv rest ih =>
    intro acc h
    obtain ⟨k, v⟩ := kv
    have hk : k ∉ acc.map Prod.fst := by
      intro hmem
      rw [List.map_append, List.nodup_append] at h
      exact h.2.2 hmem (by simp)
    have hany : acc.any (fun e => e.1 == k) = false := by
      rw [List.any_eq_false]
      intro e he hbeq
      have hek : e.1 = k := by simpa using hbeq
      exact hk (hek ▸ List.mem_map_of_mem Prod.fst he)
    have hstep : mapSet acc k v = acc ++ [(k, v)] := by
      unfold mapSet
      rw [hany]
      simp
    rw [List.foldl_cons, hstep, ih (acc ++ [(k, v)]) (by simpa using h)]
    simp

theorem fst_eq_quality_foldl_mapSet :
    ∀ (entries acc : List (String × DownloadOption)),
      (∀ e ∈ acc, e.1 = e.2.quality) →
      (∀ kv ∈ entries, kv.1 = kv.2.quality) →
      ∀ e ∈ entries.foldl (fun m kv => mapSet m kv.1 kv.2) acc,
        e.1 = e.2.quality := by
  intro entries
  induction entries with
  | nil => intro acc hacc _ e he; exact hacc e he
  | cons kv rest ih =>
    intro acc hacc hent e he
    rw [List.foldl_cons] at he
    refine ih (mapSet acc kv.1 kv.2) ?_ (fun x hx => hent x (by simp [hx])) e he
    intro x hx
    unfold mapSet at hx
    split at hx
    · obtain ⟨y, hy, rfl⟩ := List.mem_map.mp hx
      by_cases hyk : (y.1 == kv.1) = true
      · have h1 : y.1 = kv.1 := beq_iff_eq.mp hyk
        simp only [hyk, if_true]
        exact h1.symm ▸ (hent kv (by simp))
      · simp only [hyk]
        simp only [Bool.false_eq_true, if_false]
        exact hacc y hy
    · rcases List.mem_append.mp hx with hx | hx
      · exact hacc x hx
      · have : x = kv := by simpa using hx
        exact this ▸ hent kv (by simp)

theorem uniqueOptions_of_nodup {l : List DownloadOption}
    (h : (l.map DownloadOption.quality).Nodup) : uniqueOptions l = l := by
  unfold uniqueOptions mapFromEntries
  rw [foldl_mapSet_of_nodup (l.map (fun o => (o.quality, o))) []
    (by simpa [List.map_map, Function.comp] using h)]
  have hid : ((fun e : String × DownloadOption => e.2) ∘
      fun o : DownloadOption => (o.quality, o)) = id := by
    funext o; rfl
  simp only [List.nil_append, List.map_map, hid, List.map_id]

theorem nodup_quality_uniqueOptions (l : List DownloadOption) :
    ((uniqueOptions l).map DownloadOption.quality).Nodup := by
  unfold uniqueOptions
  rw [List.map_map]
  have hinv : ∀ e ∈ mapFromEntries (l.map (fun o => (o.quality, o))),
      e.1 = e.2.quality := by
    refine fst_eq_quality_foldl_mapSet _ [] (by simp) ?_
    intro kv hkv
    obtain ⟨o, _, rfl⟩ := List.mem_map.mp hkv
    rfl
  have heq : (mapFromEntries (l.map (fun o => (o.quality, o)))).map
        (DownloadOption.quality ∘ fun e => e.2) =
      (mapFromEntries (l.map (fun o => (o.quality, o)))).map Prod.fst := by
    refine List.map_congr_left ?_
    intro e he
    exact (hinv e he).symm
  rw [heq]
  exact nodup_keys_foldl_mapSet _ [] (by simp)

theorem normalizeOptions_idem (key : DownloadOption → Int)
    (l : List DownloadOption) :
    normalizeOptions key (normalizeOptions key l) = normalizeOptions key l := by
  have h1 : ((uniqueOptions l).map DownloadOption.quality).Nodup :=
    nodup_quality_uniqueOptions l
  have h2 : List.Perm (sortByKey key (uniqueOptions l)) (uniqueOptions l) :=
    perm_sortByKey key _
  have h3 : ((sortByKey key (uniqueOptions l)).map DownloadOption.quality).Nodup :=
    ((h2.map DownloadOption.quality).nodup_iff).mpr h1
  unfold normalizeOptions
  rw [uniqueOptions_of_nodup h3]
  exact sortByKey_of_keySorted key (keySorted_sortByKey key _)

theorem sortByKey_eq_nil_iff (key : α → Int) (l : List α) :
    sortByKey key l = [] ↔ l = [] := by
  cases l with
  | nil => simp [sortByKey]
  | cons x xs =>
    simp only [sortByKey]
    exact ⟨fun h => absurd h (insertByKey_ne_nil key x _), fun h => by cases h⟩

theorem sortDescHead_eq_firstMaxBy (f : α → Int) :
    ∀ l : List α, sortDescHead f l = firstMaxBy f l := by
  intro l
  induction l with
  | nil => rfl
  | cons x xs ih =>
    unfold sortDescHead firstMaxBy
    rw [sortByKey]
    cases hxs : sortByKey (fun a => -(f a)) xs with
    | nil =>
      rw [(sortByKey_eq_nil_iff _ _).mp hxs] at ih ⊢
      rw [show firstMaxBy f [] = none from rfl]
      rfl
    | cons y t =>
      have hy : firstMaxBy f xs = some y := by
        rw [← ih]; unfold sortDescHead; rw [hxs]; rfl
      rw [hy]
      show (insertByKey (fun a => -(f a)) x (y :: t)).head? =
        some (if f x < f y then y else x)
      simp only [insertByKey]
      by_cases h : f x < f y
      · rw [if_neg (show ¬(-(f x) ≤ -(f y)) by omega), if_pos h]
        rfl
      · rw [if_pos (show -(f x) ≤ -(f y) by omega), if_neg h]
        rfl

theorem firstMaxBy_mem_max (f : α → Int) :
    ∀ (l : List α) (a : α), firstMaxBy f l = some a →
      a ∈ l ∧ ∀ b ∈ l, f b ≤ f a := by
  intro l
  induction l with
  | nil => intro a h; exact absurd h (by simp [firstMaxBy])
  | cons x xs ih =>
    intro a h
    unfold firstMaxBy at h
    cases hxs : firstMaxBy f xs with
    | none =>
      rw [hxs] at h
      cases h
      have hnil : xs = [] := by
        cases xs with
        | nil => rfl
        | cons z zs =>
          exfalso
          unfold firstMaxBy at hxs
          cases hz : firstMaxBy f zs <;> rw [hz] at hxs <;> simp at hxs
      subst hnil
      exact ⟨by simp, by simp⟩
    | some y =>
      rw [hxs] at h
      have h' : some (if f x < f y then y else x) = some a := h
      obtain ⟨hy, hmax⟩ := ih y hxs
      by_cases hxy : f x < f y
      · rw [if_pos hxy] at h'
        cases h'
        refine ⟨by simp [hy], ?_⟩
        intro b hb
        rcases List.mem_cons.mp hb with rfl | hb
        · exact le_of_lt hxy
        · exact hmax b hb
      · rw [if_neg hxy] at h'
        cases h'
        refine ⟨by simp, ?_⟩
        intro b hb
        rcases List.mem_cons.mp hb with rfl | hb
        · exact le_refl _
        · exact le_trans (hmax b hb) (by omega)

/-! ## Supporting lemmas for the claim theorems -/

theorem ne_nil_of_not_isEmpty {l : List α} (h : ¬ l.isEmpty = true) :
    l ≠ [] := by
  simpa [List.isEmpty_iff] using h

theorem find?_eq_some_split {p : α → Bool} :
    ∀ {l : List α} {a : α}, l.find? p = some a →
      p a = true ∧ ∃ l1 l2, l = l1 ++ a :: l2 ∧ ∀ x ∈ l1, p x = false := by
  intro l
  induction l with
  | nil => intro a h; exact absurd h (by simp)
  | cons x xs ih =>
    intro a h
    cases hp : p x with
    | true =>
      rw [List.find?_cons_of_pos _ hp] at h
      cases h
      exact ⟨hp, [], xs, rfl, by simp⟩
    | false =>
      rw [List.find?_cons_of_neg _ (by simp [hp])] at h
      obtain ⟨hpa, l1, l2, rfl, hl1⟩ := ih h
      refine ⟨hpa, x :: l1, l2, rfl, ?_⟩
      intro z hz
      rcases List.mem_cons.mp hz with rfl | hz
      · exact hp
      · exact hl1 z hz

/-- C1: for every input url that matches none of the configured platform
detection patterns, `handleFetch` reports the unsupported-platform
error, and zero network requests are issued before that failure. -/
theorem c1_unsupported_platform_no_network (url : String)
    (resolverCalls : Platform → Nat) (hne : url ≠ "")
    (hnone : getPlatform url = none) :
    handleFetch url resolverCalls = (.unsupportedError, 0) := by
  unfold handleFetch
  rw [if_neg hne, hnone]

theorem c1_witness :
    "https://example.com/foo" ≠ "" ∧
    getPlatform "https://example.com/foo" = none ∧
    handleFetch "https://example.com/foo" (fun _ => 5) =
      (.unsupportedError, 0) :=
  ⟨by decide, by decide,
    c1_unsupported_platform_no_network "https://example.com/foo" (fun _ => 5)
      (by decide) (by decide)⟩

/-- C7: the platform detector is a function of the input string and the
static table; when it answers `some p`, `p`'s pattern matches and every
platform earlier in the fixed table order does not match; it answers
`none` exactly when no pattern in the table matches. -/
theorem c7_detector_first_match (url : String) :
    (∀ p : Platform, getPlatform url = some p →
      reTest p.regex url = true ∧
      ∃ l1 l2, PLATFORMS = l1 ++ p :: l2 ∧
        ∀ q ∈ l1, reTest q.regex url = false) ∧
    (getPlatform url = none ↔ ∀ p ∈ PLATFORMS, reTest p.regex url = false) := by
  constructor
  · intro p hp
    exact find?_eq_some_split hp
  · unfold getPlatform
    rw [List.find?_eq_none]
    simp only [Bool.not_eq_true]

theorem c7_witness :
    reTest (⟨.YouTube, "#FF0000", youTubeRE⟩ : Platform).regex
        "https://www.youtube.com/watch?v=abc12345678" = true ∧
    ∃ l1 l2, PLATFORMS = l1 ++ (⟨.YouTube, "#FF0000", youTubeRE⟩ : Platform) :: l2 ∧
      ∀ q ∈ l1, reTest q.regex "https://www.youtube.com/watch?v=abc12345678" = false :=
  (c7_detector_first_match "https://www.youtube.com/watch?v=abc12345678").1
    ⟨.YouTube, "#FF0000", youTubeRE⟩ (by decide)

/-- C4: the mirror coordinator tries endpoints in list order, one
attempt each; if the endpoints before `e` all fail and `e` succeeds
with `r`, exactly `pre.length + 1` attempts are made and the result is
`r` (no attempt after the first success); if every endpoint fails, the
attempt count is the full list length and the result is the
all-mirrors-failed `none`. -/
theorem c4_mirror_coordinator {ε ρ : Type} (attempt : ε → Option ρ) :
    (∀ (pre : List ε) (e : ε) (post : List ε) (r : ρ),
      (∀ x ∈ pre, attempt x = none) → attempt e = some r →
      runMirrors attempt (pre ++ e :: post) = (pre.length + 1, some r)) ∧
    (∀ es : List ε, (∀ x ∈ es, attempt x = none) →
      runMirrors attempt es = (es.length, none)) := by
  constructor
  · intro pre
    induction pre with
    | nil =>
      intro e post r _ hr
      simp [runMirrors, hr]
    | cons x xs ih =>
      intro e post r hpre hr
      have hx : attempt x = none := hpre x (by simp)
      simp only [List.cons_append, runMirrors, hx, List.append_eq,
        ih e post r (fun z hz => hpre z (by simp [hz])) hr, List.length_cons]
  · intro es
    induction es with
    | nil => intro _; rfl
    | cons x xs ih =>
      intro h
      have hx : attempt x = none := h x (by simp)
      simp only [runMirrors, hx, ih (fun z hz => h z (by simp [hz])),
        List.length_cons]

theorem c4_witness :
    runMirrors
      (fun e => if e = "https://inv.riverside.rocks" then some 42 else none)
      INV_MIRRORS = (3, some 42) ∧
    runMirrors (fun _ : String => (none : Option Nat)) INV_MIRRORS_003 =
      (5, none) :=
  ⟨(c4_mirror_coordinator
      (fun e => if e = "https://inv.riverside.rocks" then some 42 else none)).1
      ["https://invidious.snopyta.org", "https://y.com.sb"]
      "https://inv.riverside.rocks"
      ["https://invidious.fdn.fr", "https://invidious.tiekoetter.com"] 42
      (by decide) (by decide),
    (c4_mirror_coordinator (fun _ : String => (none : Option Nat))).2
      INV_MIRRORS_003 (fun x _ => rfl)⟩

/-- C5: at the failing input — two extracted options with the same
quality label (a muxed and a demuxed 720p variant) — the
`new Map(...).values()` deduplication keeps the *last* option per
label, not the first one the code comment and the spec promise. -/
theorem c5_dedup_keeps_last :
    uniqueOptions
      [⟨"720p", some "https://cdn/a-muxed.mp4", "mp4", none⟩,
       ⟨"720p", some "https://cdn/b-video-only.mp4", "mp4", none⟩] =
      [⟨"720p", some "https://cdn/b-video-only.mp4", "mp4", none⟩] := by
  decide

/-- C6: the Normalizer's deduplicate-and-rank step is idempotent, for
the backend comparator (`server.mjs`) and the serverless comparator
(`part_005`) alike. -/
theorem c6_normalizer_idempotent (l : List DownloadOption) :
    normalizeOptions keyServer (normalizeOptions keyServer l) =
      normalizeOptions keyServer l ∧
    normalizeOptions keyHandler (normalizeOptions keyHandler l) =
      normalizeOptions keyHandler l :=
  ⟨normalizeOptions_idem keyServer l, normalizeOptions_idem keyHandler l⟩

/-- C8: best-audio selection — sorting the audio streams by descending
(defaulted) bitrate and taking element `[0]` picks exactly the first
stream, in upstream order, whose bitrate is maximal; in particular the
selected stream's bitrate is numerically highest. -/
theorem c8_best_audio_selection (l : List YTStream) :
    bestAudio002 l = firstMaxBy (fun s => s.bitrate.getD 0) l ∧
    (∀ a, bestAudio002 l = some a →
      a ∈ l ∧ ∀ b ∈ l, b.bitrate.getD 0 ≤ a.bitrate.getD 0) := by
  refine ⟨sortDescHead_eq_firstMaxBy _ l, ?_⟩
  intro a ha
  refine firstMaxBy_mem_max _ l a ?_
  rw [← sortDescHead_eq_firstMaxBy]
  exact ha

theorem c8_witness :
    bestAudio002 [demoAudio128, demoAudio192a, demoAudio192b] =
      some demoAudio192a ∧
    demoAudio192a ∈ [demoAudio128, demoAudio192a, demoAudio192b] ∧
    ∀ b ∈ [demoAudio128, demoAudio192a, demoAudio192b],
      b.bitrate.getD 0 ≤ demoAudio192a.bitrate.getD 0 :=
  ⟨by decide,
    ((c8_best_audio_selection [demoAudio128, demoAudio192a, demoAudio192b]).2
      demoAudio192a (by decide)).1,
    ((c8_best_audio_selection [demoAudio128, demoAudio192a, demoAudio192b]).2
      demoAudio192a (by decide)).2⟩

/-- C9 (amended): the `part_002`/`server.mjs`/`part_005` size
normalisation renders a present byte count as a one-decimal `<value> MB`
string — in particular `5,242,880 ↦ "5.0 MB"` — and omits the field for
an absent byte count; the `part_003` draft also omits absent sizes but
renders two decimals, not one. -/
theorem c9_size_normalization :
    (∀ n : Nat, ∃ whole tenth : Nat, tenth < 10 ∧
      sizeField002 (some n) =
        some (toString whole ++ "." ++ toString tenth ++ " MB")) ∧
    sizeField002 (some 5242880) = some "5.0 MB" ∧
    sizeField002 none = none ∧
    sizeField003 none = none := by
  refine ⟨?_, by decide, rfl, rfl⟩
  intro n
  exact ⟨(n * 10 + 524288) / 1048576 / 10, (n * 10 + 524288) / 1048576 % 10,
    Nat.mod_lt _ (by omega), rfl⟩

/-- C9 counterexample: the `part_003` formatter — one of the renderers
the claim covers — renders 5,242,880 bytes as the two-decimal
`"5.00 MB"`, not the one-decimal `"5.0 MB"`. -/
theorem c9_counterexample :
    sizeField003 (some 5242880) = some "5.00 MB" ∧
    ("5.00 MB" : String) ≠ "5.0 MB" := by
  decide

theorem key003_beq_rank (o : DownloadOption) (r : Nat) (hr : r ≤ 9) :
    (key003 o == (if r = 9 then (999 : Int) else (r : Int))) =
      (qualityRank o.quality == r) := by
  have hq := qualityRank_le_nine o.quality
  rw [key003_eq, Bool.eq_iff_iff]
  simp only [beq_iff_eq]
  split_ifs <;> omega

/-- C3 (amended): the `part_003` ranking orders options by the fixed
quality-rank table (known labels in table order, every unknown-label
option after all known-label options), is stable — for each rank the
subsequence of options of that rank is exactly as in the input, so in
particular unknown-label options keep their relative input order — and
permutes the input.  (The `part_002` draft comparator instead places
unknown labels first; see the counterexample.) -/
theorem c3_rank003_table_order_stable (l : List DownloadOption) :
    List.Pairwise
      (fun a b => qualityRank a.quality ≤ qualityRank b.quality) (rank003 l) ∧
    (∀ r : Nat, (rank003 l).filter (fun o => qualityRank o.quality == r) =
      l.filter (fun o => qualityRank o.quality == r)) ∧
    List.Perm (rank003 l) l := by
  unfold rank003
  refine ⟨?_, ?_, perm_sortByKey key003 l⟩
  · exact List.Pairwise.imp (fun h => (key003_le_iff _ _).mp h)
      (keySorted_sortByKey key003 l)
  · intro r
    by_cases hr : r ≤ 9
    · have hpt : ∀ o : DownloadOption,
          (qualityRank o.quality == r) =
            (key003 o == (if r = 9 then (999 : Int) else (r : Int))) :=
        fun o => (key003_beq_rank o r hr).symm
      rw [List.filter_congr (fun o _ => hpt o),
        List.filter_congr (fun o _ => hpt o), filter_sortByKey]
    · have hfar : ∀ o : DownloadOption,
          (qualityRank o.quality == r) = false := by
        intro o
        rw [beq_eq_false_iff_ne]
        have := qualityRank_le_nine o.quality
        omega
      rw [List.filter_congr (fun o _ => hfar o),
        List.filter_congr (fun o _ => hfar o)]
      simp

/-- C3 counterexample: the `part_002` comparator — one of the two
ranking sites the claim covers — sorts the unknown label `720p60`
*before* the known label `720p` (JavaScript `indexOf` returns `-1` for
unknown labels, which sorts below every table index), so unknown-label
options do not come after all known-label options. -/
theorem c3_counterexample :
    rank002 [⟨"720p", some "https://cdn/v720.mp4", "mp4", none⟩,
             ⟨"720p60", some "https://cdn/v720p60.mp4", "mp4", none⟩] =
      [⟨"720p60", some "https://cdn/v720p60.mp4", "mp4", none⟩,
       ⟨"720p", some "https://cdn/v720.mp4", "mp4", none⟩] ∧
    qualityRank "720p60" = 9 ∧ qualityRank "720p" = 3 := by
  decide

theorem ok_of_guard {c : Prop} [Decidable c] {e : String}
    {rest : Except String MediaInfo} {info : MediaInfo}
    (h : (if c then Except.error e else rest) = .ok info) :
    rest = .ok info := by
  split at h
  · exact Except.noConfusion h
  · exact h

theorem ok_of_ite {c : Prop} [Decidable c] {e : String} {x info : MediaInfo}
    (h : (if c then Except.error e else Except.ok x) = .ok info) :
    ¬c ∧ x = info := by
  split at h
  · exact Except.noConfusion h
  · exact ⟨by assumption, Except.ok.inj h⟩

theorem ite_fallback_ne_nil {c : Prop} [Decidable c] (videoId : String)
    {l : List DownloadOption} (hl : ¬c → l ≠ []) :
    (if c then [fallbackOption videoId] else l) ≠ [] := by
  split
  · simp
  · exact hl (by assumption)

theorem hrOk_of_guard {c : Prop} [Decidable c] {m : String}
    {rest : HandlerResult} {info : MediaInfo}
    (h : (if c then HandlerResult.badRequest m else rest) = .ok info) :
    rest = .ok info := by
  split at h
  · exact HandlerResult.noConfusion h
  · exact h

theorem fetchYouTubeInfo002_ok {vid : Option String}
    {att : String → Option YTData} {info : MediaInfo}
    (h : fetchYouTubeInfo002 vid att = .ok info) :
    info.downloadOptions ≠ [] ∧ info.platform = .YouTube := by
  unfold fetchYouTubeInfo002 at h
  cases vid with
  | none => exact Except.noConfusion h
  | some v =>
    cases hm : (runMirrors att INV_MIRRORS).2 with
    | none =>
      rw [hm] at h
      exact Except.noConfusion h
    | some data =>
      rw [hm] at h
      obtain ⟨hne, hrec⟩ := ok_of_ite h
      cases hrec
      refine ⟨?_, rfl⟩
      intro hnil
      exact (ne_nil_of_not_isEmpty hne) ((sortByKey_eq_nil_iff key002 _).mp hnil)

theorem fetchTikTokInfo002_ok {url : String} {r : Option TikTokResponse}
    {info : MediaInfo} (h : fetchTikTokInfo002 url r = .ok info) :
    info.downloadOptions ≠ [] ∧ info.platform = .TikTok := by
  cases r with
  | none => exact Except.noConfusion h
  | some json =>
    obtain ⟨hne, hrec⟩ := ok_of_ite (ok_of_guard h)
    cases hrec
    exact ⟨ne_nil_of_not_isEmpty hne, rfl⟩

theorem fetchTwitterInfo002_ok {url : String} {r : Option TwResponse}
    {info : MediaInfo} (h : fetchTwitterInfo002 url r = .ok info) :
    info.downloadOptions ≠ [] ∧ info.platform = .Twitter := by
  cases r with
  | none => exact Except.noConfusion h
  | some json =>
    obtain ⟨tw, msg⟩ := json
    cases tw with
    | none => exact Except.noConfusion h
    | some t =>
      obtain ⟨hne, hrec⟩ := ok_of_ite h
      cases hrec
      exact ⟨ne_nil_of_not_isEmpty hne, rfl⟩

theorem fetchInstagramInfo002_ok {url : String} {r : Option InstaResponse}
    {info : MediaInfo} (h : fetchInstagramInfo002 url r = .ok info) :
    info.downloadOptions ≠ [] ∧ info.platform = .Instagram := by
  cases r with
  | none => exact Except.noConfusion h
  | some json =>
    obtain ⟨hne, hrec⟩ := ok_of_ite (ok_of_guard h)
    cases hrec
    exact ⟨ne_nil_of_not_isEmpty hne, rfl⟩

theorem fetchFacebookInfo002_ok {url : String} {r : Option FBResponse}
    {info : MediaInfo} (h : fetchFacebookInfo002 url r = .ok info) :
    info.downloadOptions ≠ [] ∧ info.platform = .Facebook := by
  cases r with
  | none => exact Except.noConfusion h
  | some json =>
    obtain ⟨hne, hrec⟩ := ok_of_ite (ok_of_guard h)
    cases hrec
    exact ⟨ne_nil_of_not_isEmpty hne, rfl⟩

theorem fetchPinterestInfo002_ok {url : String} {r : Option PinResponse}
    {info : MediaInfo} (h : fetchPinterestInfo002 url r = .ok info) :
    info.downloadOptions ≠ [] ∧ info.platform = .Pinterest := by
  cases r with
  | none => exact Except.noConfusion h
  | some json =>
    obtain ⟨hne, hrec⟩ := ok_of_ite (ok_of_guard h)
    cases hrec
    exact ⟨ne_nil_of_not_isEmpty hne, rfl⟩

theorem ytHandler005_ok {u vid : Option String} {oe : Option OEmbedData}
    {inv : String → Option InvData} {info : MediaInfo}
    (h : ytHandler005 u vid oe inv = .ok info) :
    info.downloadOptions ≠ [] ∧ info.platform = .YouTube := by
  cases u with
  | none => exact HandlerResult.noConfusion h
  | some uu =>
    replace h := hrOk_of_guard (hrOk_of_guard h)
    cases vid with
    | none => exact HandlerResult.noConfusion h
    | some videoId =>
      cases oe with
      | none => exact HandlerResult.noConfusion h
      | some oedata =>
        cases hm : (runMirrors (handlerAttempt inv) INVIDIOUS_INSTANCES_005).2 with
        | none =>
          rw [hm] at h
          cases HandlerResult.ok.inj h
          exact ⟨by simp, rfl⟩
        | some videoData =>
          rw [hm] at h
          cases HandlerResult.ok.inj h
          exact ⟨ite_fallback_ne_nil videoId ne_nil_of_not_isEmpty, rfl⟩

/-- C2 (amended): every `MediaInfo` any `part_002` resolver or the
`part_005` serverless handler returns carries a non-empty
`downloadOptions` list, and the `part_002` client resolvers fail with
their no-media error when zero artifacts are extracted (the TikTok
case is shown); the serverless handler, however, substitutes a
`'Watch on YouTube'` link option instead of failing — see the
counterexample. -/
theorem c2_success_options_nonempty :
    (∀ (vid : Option String) (att : String → Option YTData) (info : MediaInfo),
      fetchYouTubeInfo002 vid att = .ok info → info.downloadOptions ≠ []) ∧
    (∀ (url : String) (r : Option TikTokResponse) (info : MediaInfo),
      fetchTikTokInfo002 url r = .ok info → info.downloadOptions ≠ []) ∧
    (∀ (url : String) (r : Option TwResponse) (info : MediaInfo),
      fetchTwitterInfo002 url r = .ok info → info.downloadOptions ≠ []) ∧
    (∀ (url : String) (r : Option InstaResponse) (info : MediaInfo),
      fetchInstagramInfo002 url r = .ok info → info.downloadOptions ≠ []) ∧
    (∀ (url : String) (r : Option FBResponse) (info : MediaInfo),
      fetchFacebookInfo002 url r = .ok info → info.downloadOptions ≠ []) ∧
    (∀ (url : String) (r : Option PinResponse) (info : MediaInfo),
      fetchPinterestInfo002 url r = .ok info → info.downloadOptions ≠ []) ∧
    (∀ (u vid : Option String) (oe : Option OEmbedData)
       (inv : String → Option InvData) (info : MediaInfo),
      ytHandler005 u vid oe inv = .ok info → info.downloadOptions ≠ []) ∧
    (∀ (url : String) (json : TikTokResponse), json.code = 0 →
      truthyStr (jsOrOpt json.data.hdplay json.data.play) = false →
      truthyStr json.data.music = false →
      fetchTikTokInfo002 url (some json) = .error "No media found") := by
  refine ⟨fun _ _ _ h => (fetchYouTubeInfo002_ok h).1,
    fun _ _ _ h => (fetchTikTokInfo002_ok h).1,
    fun _ _ _ h => (fetchTwitterInfo002_ok h).1,
    fun _ _ _ h => (fetchInstagramInfo002_ok h).1,
    fun _ _ _ h => (fetchFacebookInfo002_ok h).1,
    fun _ _ _ h => (fetchPinterestInfo002_ok h).1,
    fun _ _ _ _ _ h => (ytHandler005_ok h).1, ?_⟩
  intro url json h0 hv hm
  simp [fetchTikTokInfo002, h0, hv, hm]

theorem c2_witness :
    fetchTikTokInfo002 "https://www.tiktok.com/@creator/video/123"
      (some demoTikTok) = .ok demoTikTokInfo ∧
    demoTikTokInfo.downloadOptions ≠ [] :=
  ⟨rfl, c2_success_options_nonempty.2.1
    "https://www.tiktok.com/@creator/video/123" (some demoTikTok)
    demoTikTokInfo rfl⟩

/-- C2 counterexample: on a well-formed 200 upstream response with zero
usable artifacts (its only stream lacks a url), the serverless handler
returns a *success* whose options list is the substituted
`'Watch on YouTube'` link — it does not fail with a no-media error, so
a resolver extracting zero usable artifacts does not always fail. -/
theorem c2_counterexample :
    ytHandler005 (some "https://www.youtube.com/watch?v=abc12345678")
      (some "abc12345678") (some ⟨"A video", "An author"⟩) demoInv =
      .ok { title := "A video",
            thumbnail := some (maxresThumb "abc12345678"),
            duration := some "00:00:10",
            author := some "An author",
            platform := .YouTube,
            url := watchUrl "abc12345678",
            downloadOptions := [fallbackOption "abc12345678"],
            description := some "" } ∧
    fallbackOption "abc12345678" =
      ⟨"Watch on YouTube", some "https://www.youtube.com/watch?v=abc12345678",
       "link", none⟩ :=
  ⟨rfl, rfl⟩

/-- C10: every successful `fetchMediaInfo002` call returns a record
whose `platform` field is exactly the name of the platform it
dispatched on — each per-platform resolver stamps its own name. -/
theorem c10_resolver_stamps_platform (url : String) (platform : Platform)
    (u : Upstream) (info : MediaInfo)
    (h : fetchMediaInfo002 url platform u = .ok info) :
    info.platform = platform.name := by
  obtain ⟨pname, pcolor, pregex⟩ := platform
  cases pname with
  | YouTube => exact (fetchYouTubeInfo002_ok h).2
  | TikTok => exact (fetchTikTokInfo002_ok h).2
  | Instagram => exact (fetchInstagramInfo002_ok h).2
  | Twitter => exact (fetchTwitterInfo002_ok h).2
  | Facebook => exact (fetchFacebookInfo002_ok h).2
  | LinkedIn => exact Except.noConfusion h
  | Pinterest => exact (fetchPinterestInfo002_ok h).2

theorem c10_witness :
    fetchMediaInfo002 "https://www.tiktok.com/@creator/video/123"
      ⟨.TikTok, "#000000", tikTokRE⟩ demoUpstream = .ok demoTikTokInfo ∧
    demoTikTokInfo.platform = (⟨.TikTok, "#000000", tikTokRE⟩ : Platform).name :=
  ⟨rfl, c10_resolver_stamps_platform "https://www.tiktok.com/@creator/video/123"
    ⟨.TikTok, "#000000", tikTokRE⟩ demoUpstream demoTikTokInfo rfl⟩

end Alldownload
